import Mathlib

/-!
Verification of the door actuator controller in `src/motor.cpp`
(KL25Z driver: pressure-pad interrupts start the motor up or down,
travel timers stop it open-loop, and a torque/current sensor forces an
emergency stop on overload).

The C++ program keeps its state in process-wide globals (two timer-enable
flags, two timer values, the door position flag) plus the memory-mapped
output pins (two motor outputs, three on-board LEDs).  We embed that state
as the structure `MotorState` and each C++ function as a pure state
transformer.  The timers and currents are `float` in the source; every
value the program ever computes with them (10.0, multiples of 0.5, the
supply voltage over the sense resistance) is modelled in `ℚ`, over which
the source's subtractions and comparisons are exact.

The analog torque-sensor read is the program's only input inside the main
loop, so the tick path is parameterised by the raw normalized reading
`raw`; the two pressure-pad interrupt callbacks are modelled as events
that may interleave with ticks.
-/

set_option linter.unusedVariables false

namespace Motor

/-- The GLOBAL CONSTANTS of `motor.cpp` (`#define` block, lines 36-47). -/
def V_SUPPLY : ℚ := 33 / 10

def MOTOR_SERIES_RESISTANCE : ℚ := 10

def MOTOR_CURRENT_LIMIT : ℚ := 1 / 10

def CYCLE_TIME : ℚ := 1 / 2

def DOOR_FALL_TIME : ℚ := 10

def DOOR_RISE_TIME : ℚ := 10

def RED : Int := 0

def GREEN : Int := 1

def BLUE : Int := 2

/-- The mutable state of `motor.cpp`: the five global variables
(lines 50-54) and the output pins (`OutputMotorUp`, `OutputMotorDown`,
the three active-low on-board LEDs).  A `DigitalOut` pin is modelled as a
`Bool`: `true` is pin level 1, `false` is pin level 0. -/
structure MotorState where
  timer_up_en : Bool
  timer_down_en : Bool
  timer_up_value : ℚ
  timer_down_value : ℚ
  door_is_up : Bool
  OutputMotorUp : Bool
  OutputMotorDown : Bool
  RED_LED : Bool
  GREEN_LED : Bool
  BLUE_LED : Bool
deriving DecidableEq, Repr

/-- `light_LED` (motor.cpp lines 108-126): set all three LEDs to 1 (off,
the LEDs are active-low), then drive the selected one to 0 (on); a value
outside {0,1,2} falls through the `switch` and leaves all three off. -/
def light_LED (LED : Int) (s : MotorState) : MotorState :=
  let s1 := { s with RED_LED := true, GREEN_LED := true, BLUE_LED := true }
  if LED = RED then { s1 with RED_LED := false }
  else if LED = GREEN then { s1 with GREEN_LED := false }
  else if LED = BLUE then { s1 with BLUE_LED := false }
  else s1

/-- `pressure_detected` (motor.cpp lines 129-145): if the door is not up
and the up timer is not already enabled, drive the motor up, enable the
up timer and light the green LED; otherwise do nothing. -/
def pressure_detected (s : MotorState) : MotorState :=
  if !s.door_is_up && !s.timer_up_en then
    light_LED GREEN { s with OutputMotorUp := true, timer_up_en := true }
  else s

/-- `pressure_relieved` (motor.cpp lines 147-164): if the door is up and
the down timer is not already enabled, drive the motor down, enable the
down timer and light the blue LED; otherwise do nothing. -/
def pressure_relieved (s : MotorState) : MotorState :=
  if s.door_is_up && !s.timer_down_en then
    light_LED BLUE { s with OutputMotorDown := true, timer_down_en := true }
  else s

/-- `get_motor_current` (motor.cpp lines 166-182): the motor current in
amperes computed from the raw normalized A/D reading,
`V_SUPPLY * raw / MOTOR_SERIES_RESISTANCE`. -/
def get_motor_current (raw : ℚ) : ℚ :=
  V_SUPPLY * raw / MOTOR_SERIES_RESISTANCE

/-- `check_torque_sensor` (motor.cpp lines 184-197): if the measured
current is at or above `MOTOR_CURRENT_LIMIT`, drive both motor outputs to
0 and light the red LED; otherwise change nothing. -/
def check_torque_sensor (raw : ℚ) (s : MotorState) : MotorState :=
  if MOTOR_CURRENT_LIMIT ≤ get_motor_current raw then
    light_LED RED { s with OutputMotorUp := false, OutputMotorDown := false }
  else s

/-- `iterate_and_check_timer` (motor.cpp lines 66-105): if the up timer is
enabled, advance it by `CYCLE_TIME`; on reaching ≤ 0 light the red LED,
disable the timer, reset it to `DOOR_RISE_TIME`, stop the up output and
record the door as up.  Otherwise (`else if`) do the same for the down
timer, with target position down. -/
def iterate_and_check_timer (s : MotorState) : MotorState :=
  if s.timer_up_en then
    if s.timer_up_value - CYCLE_TIME ≤ 0 then
      { light_LED RED { s with timer_up_value := s.timer_up_value - CYCLE_TIME } with
        timer_up_en := false, timer_up_value := DOOR_RISE_TIME,
        OutputMotorUp := false, door_is_up := true }
    else { s with timer_up_value := s.timer_up_value - CYCLE_TIME }
  else if s.timer_down_en then
    if s.timer_down_value - CYCLE_TIME ≤ 0 then
      { light_LED RED { s with timer_down_value := s.timer_down_value - CYCLE_TIME } with
        timer_down_en := false, timer_down_value := DOOR_FALL_TIME,
        OutputMotorDown := false, door_is_up := false }
    else { s with timer_down_value := s.timer_down_value - CYCLE_TIME }
  else s

/-- One iteration of the `while(true)` loop in `main`
(motor.cpp lines 219-232): read the sensor and run the safety check
(`check_torque_sensor`), then advance the active timer
(`iterate_and_check_timer`).  `raw` is the normalized analog reading the
cycle samples. -/
def tick (raw : ℚ) (s : MotorState) : MotorState :=
  iterate_and_check_timer (check_torque_sensor raw s)

/-- The inputs that can reach the controller: the two edge-triggered
pressure-pad callbacks (attached in `attachInterrupts`, which the
platform serializes against the main loop) and one main-loop cycle with
its sampled sensor reading. -/
inductive Event where
  | detected : Event
  | relieved : Event
  | cycle : ℚ → Event
deriving Repr

/-- Apply one event to the state. -/
def step : Event → MotorState → MotorState
  | Event.detected, s => pressure_detected s
  | Event.relieved, s => pressure_relieved s
  | Event.cycle raw, s => tick raw s

/-- The state of the globals after startup (motor.cpp lines 50-54 and the
LED initialization in `main`, lines 210-217): both timers disabled and at
their full durations, door down, motor outputs at the pin reset level 0,
all LEDs off (level 1; the start-up blue blink ends back at 1). -/
def initState : MotorState :=
  { timer_up_en := false
    timer_down_en := false
    timer_up_value := DOOR_RISE_TIME
    timer_down_value := DOOR_FALL_TIME
    door_is_up := false
    OutputMotorUp := false
    OutputMotorDown := false
    RED_LED := true
    GREEN_LED := true
    BLUE_LED := true }

/-- The state after a finite sequence of events, most recent event first:
`run (e :: es) = step e (run es)`. -/
def run : List Event → MotorState
  | [] => initState
  | e :: es => step e (run es)

/-- A state the program can be in: reached from startup by some
interleaving of pressure events and main-loop cycles. -/
def Reachable (s : MotorState) : Prop :=
  ∃ es : List Event, run es = s

/-! ### Frame lemmas for `light_LED`

`light_LED` writes only the three LED pins; every other field of the
state passes through unchanged. -/

@[simp]
theorem light_LED_timer_up_en (n : Int) (s : MotorState) :
    (light_LED n s).timer_up_en = s.timer_up_en := by
  unfold light_LED; split_ifs <;> rfl

@[simp]
theorem light_LED_timer_down_en (n : Int) (s : MotorState) :
    (light_LED n s).timer_down_en = s.timer_down_en := by
  unfold light_LED; split_ifs <;> rfl

@[simp]
theorem light_LED_timer_up_value (n : Int) (s : MotorState) :
    (light_LED n s).timer_up_value = s.timer_up_value := by
  unfold light_LED; split_ifs <;> rfl

@[simp]
theorem light_LED_timer_down_value (n : Int) (s : MotorState) :
    (light_LED n s).timer_down_value = s.timer_down_value := by
  unfold light_LED; split_ifs <;> rfl

@[simp]
theorem light_LED_door_is_up (n : Int) (s : MotorState) :
    (light_LED n s).door_is_up = s.door_is_up := by
  unfold light_LED; split_ifs <;> rfl

@[simp]
theorem light_LED_OutputMotorUp (n : Int) (s : MotorState) :
    (light_LED n s).OutputMotorUp = s.OutputMotorUp := by
  unfold light_LED; split_ifs <;> rfl

@[simp]
theorem light_LED_OutputMotorDown (n : Int) (s : MotorState) :
    (light_LED n s).OutputMotorDown = s.OutputMotorDown := by
  unfold light_LED; split_ifs <;> rfl

/-! ### The inductive invariant

`Inv` is the conjunction of the state-machine invariants the spec
names (§3): an enabled up timer means the door is down, an enabled down
timer means the door is up (together these exclude both timers being
enabled), a driven motor output means its timer is enabled, and each
timer value stays in `(0, full duration]`. -/

/-- The inductive invariant on `MotorState`. -/
def Inv (s : MotorState) : Prop :=
  (s.timer_up_en = true → s.door_is_up = false) ∧
  (s.timer_down_en = true → s.door_is_up = true) ∧
  (s.OutputMotorUp = true → s.timer_up_en = true) ∧
  (s.OutputMotorDown = true → s.timer_down_en = true) ∧
  0 < s.timer_up_value ∧ s.timer_up_value ≤ DOOR_RISE_TIME ∧
  0 < s.timer_down_value ∧ s.timer_down_value ≤ DOOR_FALL_TIME

theorem Inv_initState : Inv initState := by
  simp [Inv, initState, DOOR_RISE_TIME, DOOR_FALL_TIME]

theorem Inv_pressure_detected {s : MotorState} (h : Inv s) :
    Inv (pressure_detected s) := by
  obtain ⟨h1, h2, h3, h4, h5, h6, h7, h8⟩ := h
  unfold pressure_detected
  split_ifs with hg
  · simp only [Bool.and_eq_true, Bool.not_eq_true'] at hg
    obtain ⟨hd, he⟩ := hg
    refine ⟨?_, ?_, ?_, ?_, ?_, ?_, ?_, ?_⟩ <;> simp_all [Inv]
  · exact ⟨h1, h2, h3, h4, h5, h6, h7, h8⟩

theorem Inv_pressure_relieved {s : MotorState} (h : Inv s) :
    Inv (pressure_relieved s) := by
  obtain ⟨h1, h2, h3, h4, h5, h6, h7, h8⟩ := h
  unfold pressure_relieved
  split_ifs with hg
  · simp only [Bool.and_eq_true, Bool.not_eq_true'] at hg
    obtain ⟨hd, he⟩ := hg
    refine ⟨?_, ?_, ?_, ?_, ?_, ?_, ?_, ?_⟩ <;> simp_all [Inv]
  · exact ⟨h1, h2, h3, h4, h5, h6, h7, h8⟩

theorem Inv_check_torque_sensor (raw : ℚ) {s : MotorState} (h : Inv s) :
    Inv (check_torque_sensor raw s) := by
  obtain ⟨h1, h2, h3, h4, h5, h6, h7, h8⟩ := h
  unfold check_torque_sensor
  split_ifs with hg
  · refine ⟨?_, ?_, ?_, ?_, ?_, ?_, ?_, ?_⟩ <;> simp_all [Inv]
  · exact ⟨h1, h2, h3, h4, h5, h6, h7, h8⟩

theorem Inv_iterate_and_check_timer {s : MotorState} (h : Inv s) :
    Inv (iterate_and_check_timer s) := by
  obtain ⟨h1, h2, h3, h4, h5, h6, h7, h8⟩ := h
  unfold iterate_and_check_timer
  split_ifs with hu hz hd hw
  · -- up timer enabled and expires
    refine ⟨by simp, by simp, by simp, ?_, ?_, ?_, h7, h8⟩
    · simpa using h4
    · norm_num [DOOR_RISE_TIME]
    · norm_num [DOOR_RISE_TIME]
  · -- up timer enabled, still running
    push_neg at hz
    refine ⟨by simpa using h1, by simpa using h2, by simpa using h3,
      by simpa using h4, by simpa using hz, ?_, h7, h8⟩
    show s.timer_up_value - CYCLE_TIME ≤ DOOR_RISE_TIME
    have hc : (0 : ℚ) < CYCLE_TIME := by norm_num [CYCLE_TIME]
    linarith
  · -- down timer enabled and expires
    refine ⟨by simp, by simp, ?_, by simp, h5, h6, ?_, ?_⟩
    · simpa using h3
    · norm_num [DOOR_FALL_TIME]
    · norm_num [DOOR_FALL_TIME]
  · -- down timer enabled, still running
    push_neg at hw
    refine ⟨by simpa using h1, by simpa using h2, by simpa using h3,
      by simpa using h4, h5, h6, by simpa using hw, ?_⟩
    show s.timer_down_value - CYCLE_TIME ≤ DOOR_FALL_TIME
    have hc : (0 : ℚ) < CYCLE_TIME := by norm_num [CYCLE_TIME]
    linarith
  · exact ⟨h1, h2, h3, h4, h5, h6, h7, h8⟩

theorem Inv_step (e : Event) {s : MotorState} (h : Inv s) : Inv (step e s) := by
  cases e with
  | detected => exact Inv_pressure_detected h
  | relieved => exact Inv_pressure_relieved h
  | cycle raw => exact Inv_iterate_and_check_timer (Inv_check_torque_sensor raw h)

theorem Inv_run (es : List Event) : Inv (run es) := by
  induction es with
  | nil => exact Inv_initState
  | cons e es ih => exact Inv_step e ih

theorem Inv_of_Reachable {s : MotorState} (h : Reachable s) : Inv s := by
  obtain ⟨es, rfl⟩ := h
  exact Inv_run es

/-! ### Frame and effect lemmas for `check_torque_sensor`

`check_torque_sensor` writes at most the two motor outputs and the LEDs;
the timer-enable flags, the timer values and the door position pass
through unchanged on both of its paths. -/

@[simp]
theorem check_torque_sensor_timer_up_en (raw : ℚ) (s : MotorState) :
    (check_torque_sensor raw s).timer_up_en = s.timer_up_en := by
  unfold check_torque_sensor; split_ifs <;> simp

@[simp]
theorem check_torque_sensor_timer_down_en (raw : ℚ) (s : MotorState) :
    (check_torque_sensor raw s).timer_down_en = s.timer_down_en := by
  unfold check_torque_sensor; split_ifs <;> simp

@[simp]
theorem check_torque_sensor_timer_up_value (raw : ℚ) (s : MotorState) :
    (check_torque_sensor raw s).timer_up_value = s.timer_up_value := by
  unfold check_torque_sensor; split_ifs <;> simp

@[simp]
theorem check_torque_sensor_timer_down_value (raw : ℚ) (s : MotorState) :
    (check_torque_sensor raw s).timer_down_value = s.timer_down_value := by
  unfold check_torque_sensor; split_ifs <;> simp

@[simp]
theorem check_torque_sensor_door_is_up (raw : ℚ) (s : MotorState) :
    (check_torque_sensor raw s).door_is_up = s.door_is_up := by
  unfold check_torque_sensor; split_ifs <;> simp

theorem check_torque_sensor_overload (raw : ℚ) (s : MotorState)
    (h : MOTOR_CURRENT_LIMIT ≤ get_motor_current raw) :
    (check_torque_sensor raw s).OutputMotorUp = false ∧
    (check_torque_sensor raw s).OutputMotorDown = false ∧
    (check_torque_sensor raw s).RED_LED = false := by
  unfold check_torque_sensor
  rw [if_pos h]
  simp [light_LED, RED, GREEN, BLUE]

theorem check_torque_sensor_no_overload (raw : ℚ) (s : MotorState)
    (h : get_motor_current raw < MOTOR_CURRENT_LIMIT) :
    check_torque_sensor raw s = s := by
  unfold check_torque_sensor
  rw [if_neg (not_le.mpr h)]

/-! ### Branch lemmas for `iterate_and_check_timer` -/

theorem iterate_up_expiry (s : MotorState) (hen : s.timer_up_en = true)
    (hz : s.timer_up_value - CYCLE_TIME ≤ 0) :
    (iterate_and_check_timer s).timer_up_en = false ∧
    (iterate_and_check_timer s).timer_down_en = s.timer_down_en ∧
    (iterate_and_check_timer s).timer_up_value = DOOR_RISE_TIME ∧
    (iterate_and_check_timer s).timer_down_value = s.timer_down_value ∧
    (iterate_and_check_timer s).door_is_up = true ∧
    (iterate_and_check_timer s).OutputMotorUp = false ∧
    (iterate_and_check_timer s).OutputMotorDown = s.OutputMotorDown := by
  unfold iterate_and_check_timer
  rw [if_pos hen, if_pos hz]
  simp

theorem iterate_up_running (s : MotorState) (hen : s.timer_up_en = true)
    (hz : ¬ s.timer_up_value - CYCLE_TIME ≤ 0) :
    (iterate_and_check_timer s).timer_up_en = true ∧
    (iterate_and_check_timer s).timer_down_en = s.timer_down_en ∧
    (iterate_and_check_timer s).timer_up_value = s.timer_up_value - CYCLE_TIME ∧
    (iterate_and_check_timer s).timer_down_value = s.timer_down_value ∧
    (iterate_and_check_timer s).door_is_up = s.door_is_up ∧
    (iterate_and_check_timer s).OutputMotorUp = s.OutputMotorUp ∧
    (iterate_and_check_timer s).OutputMotorDown = s.OutputMotorDown := by
  unfold iterate_and_check_timer
  rw [if_pos hen, if_neg hz]
  simpa using hen

theorem iterate_down_expiry (s : MotorState) (hu : s.timer_up_en = false)
    (hen : s.timer_down_en = true) (hz : s.timer_down_value - CYCLE_TIME ≤ 0) :
    (iterate_and_check_timer s).timer_up_en = false ∧
    (iterate_and_check_timer s).timer_down_en = false ∧
    (iterate_and_check_timer s).timer_up_value = s.timer_up_value ∧
    (iterate_and_check_timer s).timer_down_value = DOOR_FALL_TIME ∧
    (iterate_and_check_timer s).door_is_up = false ∧
    (iterate_and_check_timer s).OutputMotorUp = s.OutputMotorUp ∧
    (iterate_and_check_timer s).OutputMotorDown = false := by
  unfold iterate_and_check_timer
  rw [if_neg (by simp [hu]), if_pos hen, if_pos hz]
  simpa using hu

theorem iterate_down_running (s : MotorState) (hu : s.timer_up_en = false)
    (hen : s.timer_down_en = true) (hz : ¬ s.timer_down_value - CYCLE_TIME ≤ 0) :
    (iterate_and_check_timer s).timer_up_en = false ∧
    (iterate_and_check_timer s).timer_down_en = true ∧
    (iterate_and_check_timer s).timer_up_value = s.timer_up_value ∧
    (iterate_and_check_timer s).timer_down_value = s.timer_down_value - CYCLE_TIME ∧
    (iterate_and_check_timer s).door_is_up = s.door_is_up ∧
    (iterate_and_check_timer s).OutputMotorUp = s.OutputMotorUp ∧
    (iterate_and_check_timer s).OutputMotorDown = s.OutputMotorDown := by
  unfold iterate_and_check_timer
  rw [if_neg (by simp [hu]), if_pos hen, if_neg hz]
  simp [hu, hen]

theorem iterate_idle (s : MotorState) (hu : s.timer_up_en = false)
    (hd : s.timer_down_en = false) :
    iterate_and_check_timer s = s := by
  unfold iterate_and_check_timer
  rw [if_neg (by simp [hu]), if_neg (by simp [hd])]

theorem iterate_outputs_stay_off (s : MotorState)
    (hu : s.OutputMotorUp = false) (hd : s.OutputMotorDown = false) :
    (iterate_and_check_timer s).OutputMotorUp = false ∧
    (iterate_and_check_timer s).OutputMotorDown = false := by
  unfold iterate_and_check_timer
  split_ifs <;> simp_all

/-! ### Lemmas about one full main-loop cycle (`tick`) -/

theorem tick_up_expiry (raw : ℚ) (s : MotorState) (hen : s.timer_up_en = true)
    (hz : s.timer_up_value - CYCLE_TIME ≤ 0) :
    (tick raw s).timer_up_en = false ∧
    (tick raw s).timer_down_en = s.timer_down_en ∧
    (tick raw s).door_is_up = true ∧
    (tick raw s).timer_up_value = DOOR_RISE_TIME := by
  unfold tick
  obtain ⟨a, b, c, d, e, f, g⟩ :=
    iterate_up_expiry (check_torque_sensor raw s) (by simpa using hen) (by simpa using hz)
  exact ⟨a, by simpa using b, e, c⟩

theorem tick_up_running (raw : ℚ) (s : MotorState) (hen : s.timer_up_en = true)
    (hz : ¬ s.timer_up_value - CYCLE_TIME ≤ 0) :
    (tick raw s).timer_up_en = true ∧
    (tick raw s).timer_down_en = s.timer_down_en ∧
    (tick raw s).door_is_up = s.door_is_up ∧
    (tick raw s).timer_up_value = s.timer_up_value - CYCLE_TIME := by
  unfold tick
  obtain ⟨a, b, c, d, e, f, g⟩ :=
    iterate_up_running (check_torque_sensor raw s) (by simpa using hen) (by simpa using hz)
  exact ⟨a, by simpa using b, by simpa using e, by simpa using c⟩

theorem tick_down_expiry (raw : ℚ) (s : MotorState) (hu : s.timer_up_en = false)
    (hen : s.timer_down_en = true) (hz : s.timer_down_value - CYCLE_TIME ≤ 0) :
    (tick raw s).timer_up_en = false ∧
    (tick raw s).timer_down_en = false ∧
    (tick raw s).door_is_up = false ∧
    (tick raw s).timer_down_value = DOOR_FALL_TIME := by
  unfold tick
  obtain ⟨a, b, c, d, e, f, g⟩ :=
    iterate_down_expiry (check_torque_sensor raw s) (by simpa using hu)
      (by simpa using hen) (by simpa using hz)
  exact ⟨a, b, e, d⟩

theorem tick_down_running (raw : ℚ) (s : MotorState) (hu : s.timer_up_en = false)
    (hen : s.timer_down_en = true) (hz : ¬ s.timer_down_value - CYCLE_TIME ≤ 0) :
    (tick raw s).timer_up_en = false ∧
    (tick raw s).timer_down_en = true ∧
    (tick raw s).door_is_up = s.door_is_up ∧
    (tick raw s).timer_down_value = s.timer_down_value - CYCLE_TIME := by
  unfold tick
  obtain ⟨a, b, c, d, e, f, g⟩ :=
    iterate_down_running (check_torque_sensor raw s) (by simpa using hu)
      (by simpa using hen) (by simpa using hz)
  exact ⟨a, b, by simpa using e, by simpa using d⟩

theorem tick_idle_frame (raw : ℚ) (s : MotorState)
    (hu : s.timer_up_en = false) (hd : s.timer_down_en = false) :
    (tick raw s).timer_up_en = false ∧ (tick raw s).timer_down_en = false ∧
    (tick raw s).door_is_up = s.door_is_up := by
  unfold tick
  rw [iterate_idle (check_torque_sensor raw s) (by simpa using hu) (by simpa using hd)]
  simp [hu, hd]

theorem ticks_idle_frame (raw : ℚ) (n : ℕ) (s : MotorState)
    (hu : s.timer_up_en = false) (hd : s.timer_down_en = false) :
    ((tick raw)^[n] s).timer_up_en = false ∧ ((tick raw)^[n] s).timer_down_en = false ∧
    ((tick raw)^[n] s).door_is_up = s.door_is_up := by
  induction n generalizing s with
  | zero => exact ⟨hu, hd, rfl⟩
  | succ n ih =>
    rw [Function.iterate_succ_apply]
    obtain ⟨a, b, c⟩ := tick_idle_frame raw s hu hd
    obtain ⟨d, e, f⟩ := ih (tick raw s) a b
    exact ⟨d, e, f.trans c⟩

/-- If the up timer is running (and the down timer is not) and at most
`n` more cycles' worth of time remains on it, then after `n` cycles the
up travel has completed: the door is recorded as up and both timers are
disabled.  The sensor reading plays no role in the timers, so this holds
for every per-cycle reading, in particular for overload readings. -/
theorem up_travel_completes (raw : ℚ) (n : ℕ) (s : MotorState)
    (hen : s.timer_up_en = true) (hd : s.timer_down_en = false)
    (hpos : 0 < s.timer_up_value) (hn : s.timer_up_value ≤ (n : ℚ) * CYCLE_TIME) :
    ((tick raw)^[n] s).timer_up_en = false ∧ ((tick raw)^[n] s).timer_down_en = false ∧
    ((tick raw)^[n] s).door_is_up = true := by
  induction n generalizing s with
  | zero =>
    exfalso
    rw [Nat.cast_zero, zero_mul] at hn
    linarith
  | succ n ih =>
    rw [Function.iterate_succ_apply]
    by_cases hz : s.timer_up_value - CYCLE_TIME ≤ 0
    · obtain ⟨a, b, c, d⟩ := tick_up_expiry raw s hen hz
      obtain ⟨x, y, z⟩ := ticks_idle_frame raw n (tick raw s) a (by rw [b]; exact hd)
      exact ⟨x, y, z.trans c⟩
    · obtain ⟨a, b, c, d⟩ := tick_up_running raw s hen hz
      have hcast : ((n : ℚ) + 1) * CYCLE_TIME = (n : ℚ) * CYCLE_TIME + CYCLE_TIME := by ring
      refine ih (tick raw s) a (by rw [b]; exact hd) ?_ ?_
      · rw [d]; linarith [not_le.mp hz]
      · rw [d]
        rw [Nat.cast_succ, hcast] at hn
        linarith


/-- Down-travel analogue of `up_travel_completes`. -/
theorem down_travel_completes (raw : ℚ) (n : ℕ) (s : MotorState)
    (hu : s.timer_up_en = false) (hen : s.timer_down_en = true)
    (hpos : 0 < s.timer_down_value) (hn : s.timer_down_value ≤ (n : ℚ) * CYCLE_TIME) :
    ((tick raw)^[n] s).timer_up_en = false ∧ ((tick raw)^[n] s).timer_down_en = false ∧
    ((tick raw)^[n] s).door_is_up = false := by
  induction n generalizing s with
  | zero =>
    exfalso
    rw [Nat.cast_zero, zero_mul] at hn
    linarith
  | succ n ih =>
    rw [Function.iterate_succ_apply]
    by_cases hz : s.timer_down_value - CYCLE_TIME ≤ 0
    · obtain ⟨a, b, c, d⟩ := tick_down_expiry raw s hu hen hz
      obtain ⟨x, y, z⟩ := ticks_idle_frame raw n (tick raw s) a b
      exact ⟨x, y, z.trans c⟩
    · obtain ⟨a, b, c, d⟩ := tick_down_running raw s hu hen hz
      have hcast : ((n : ℚ) + 1) * CYCLE_TIME = (n : ℚ) * CYCLE_TIME + CYCLE_TIME := by ring
      refine ih (tick raw s) a b ?_ ?_
      · rw [d]; linarith [not_le.mp hz]
      · rw [d]
        rw [Nat.cast_succ, hcast] at hn
        linarith

/-! ### Concrete executions

The traces below replay the spec's scenarios on the embedding.  `run`
applies the head of the list last, so traces read right to left in time.
The reading `5 / 11` makes `get_motor_current` exactly `0.15` A
(`3.3 * (5/11) / 10`), the overload reading of spec scenario 2; the
reading `0` gives `0` A, below the threshold. -/

set_option maxRecDepth 8000

/-- Pressure detected while the door is down and idle. -/
def upStartTrace : List Event := [Event.detected]

/-- Up travel one cycle short of completion: 19 quiet cycles of the
10-second rise timer. -/
def upAlmostDoneTrace : List Event :=
  List.replicate 19 (Event.cycle 0) ++ [Event.detected]

/-- Full up travel: 20 quiet cycles exhaust the 10-second rise timer. -/
def doorUpTrace : List Event :=
  List.replicate 20 (Event.cycle 0) ++ [Event.detected]

/-- Pressure relieved with the door up and idle: down travel starts. -/
def downStartTrace : List Event := Event.relieved :: doorUpTrace

/-- One overload cycle (0.15 A ≥ 0.1 A) right after down travel started:
spec scenario 2. -/
def overloadStopTrace : List Event := Event.cycle (5 / 11) :: downStartTrace

theorem overload_sample_reading :
    MOTOR_CURRENT_LIMIT ≤ get_motor_current (5 / 11) := by
  norm_num [MOTOR_CURRENT_LIMIT, get_motor_current, V_SUPPLY, MOTOR_SERIES_RESISTANCE]

theorem scenario_up_start :
    (run upStartTrace).timer_up_en = true ∧
    (run upStartTrace).timer_down_en = false ∧
    (run upStartTrace).timer_up_value = 10 ∧
    (run upStartTrace).OutputMotorUp = true ∧
    (run upStartTrace).GREEN_LED = false ∧
    (run upStartTrace).door_is_up = false := by
  norm_num [upStartTrace, run, step, pressure_detected, light_LED, initState,
    RED, GREEN, BLUE, DOOR_RISE_TIME, DOOR_FALL_TIME]

theorem scenario_up_almost_done :
    (run upAlmostDoneTrace).timer_up_en = true ∧
    (run upAlmostDoneTrace).timer_down_en = false ∧
    (run upAlmostDoneTrace).timer_up_value = 1 / 2 := by
  norm_num [upAlmostDoneTrace, run, step, tick, pressure_detected, pressure_relieved,
    check_torque_sensor, iterate_and_check_timer, light_LED, get_motor_current, initState,
    V_SUPPLY, MOTOR_SERIES_RESISTANCE, MOTOR_CURRENT_LIMIT, CYCLE_TIME,
    DOOR_RISE_TIME, DOOR_FALL_TIME, RED, GREEN, BLUE, List.replicate]

theorem scenario_down_start :
    (run downStartTrace).timer_down_en = true ∧
    (run downStartTrace).timer_up_en = false ∧
    (run downStartTrace).timer_down_value = 10 ∧
    (run downStartTrace).OutputMotorDown = true ∧
    (run downStartTrace).door_is_up = true := by
  norm_num [downStartTrace, doorUpTrace, run, step, tick, pressure_detected,
    pressure_relieved, check_torque_sensor, iterate_and_check_timer, light_LED,
    get_motor_current, initState, V_SUPPLY, MOTOR_SERIES_RESISTANCE, MOTOR_CURRENT_LIMIT,
    CYCLE_TIME, DOOR_RISE_TIME, DOOR_FALL_TIME, RED, GREEN, BLUE, List.replicate]

theorem scenario_overload_stop :
    (run overloadStopTrace).OutputMotorUp = false ∧
    (run overloadStopTrace).OutputMotorDown = false ∧
    (run overloadStopTrace).door_is_up = true ∧
    (run overloadStopTrace).timer_down_en = true := by
  norm_num [overloadStopTrace, downStartTrace, doorUpTrace, run, step, tick,
    pressure_detected, pressure_relieved, check_torque_sensor, iterate_and_check_timer,
    light_LED, get_motor_current, initState, V_SUPPLY, MOTOR_SERIES_RESISTANCE,
    MOTOR_CURRENT_LIMIT, CYCLE_TIME, DOOR_RISE_TIME, DOOR_FALL_TIME, RED, GREEN, BLUE,
    List.replicate]

theorem scenario_up_start_bounds :
    0 < (run upStartTrace).timer_up_value ∧
    (run upStartTrace).timer_up_value ≤ ((20 : ℕ) : ℚ) * CYCLE_TIME := by
  obtain ⟨-, -, hv, -, -, -⟩ := scenario_up_start
  rw [hv]
  norm_num [CYCLE_TIME]

theorem scenario_up_almost_done_expiry :
    (run upAlmostDoneTrace).timer_up_value - CYCLE_TIME ≤ 0 := by
  obtain ⟨-, -, hv⟩ := scenario_up_almost_done
  rw [hv]
  norm_num [CYCLE_TIME]

theorem scenario_down_start_bounds :
    CYCLE_TIME < (run downStartTrace).timer_down_value := by
  obtain ⟨-, -, hv, -, -⟩ := scenario_down_start
  rw [hv]
  norm_num [CYCLE_TIME]

/-! ### The claims -/

/-- C1: for every current reading at or above `MOTOR_CURRENT_LIMIT`, one
execution of the monitored tick path (sensor read, then safety check,
then timer advance) ends the cycle with both motor outputs false,
regardless of the motion state and outputs before the cycle. -/
theorem overload_cycle_stops_both_outputs (raw : ℚ) (s : MotorState)
    (h : MOTOR_CURRENT_LIMIT ≤ get_motor_current raw) :
    (tick raw s).OutputMotorUp = false ∧ (tick raw s).OutputMotorDown = false := by
  obtain ⟨h1, h2, -⟩ := check_torque_sensor_overload raw s h
  unfold tick
  exact iterate_outputs_stay_off (check_torque_sensor raw s) h1 h2

/-- Witness for C1 at the concrete overload reading `5 / 11`
(0.15 A ≥ 0.1 A) and the startup state. -/
theorem overload_cycle_stops_both_outputs_witness :
    MOTOR_CURRENT_LIMIT ≤ get_motor_current (5 / 11) ∧
    ((tick (5 / 11) initState).OutputMotorUp = false ∧
     (tick (5 / 11) initState).OutputMotorDown = false) :=
  ⟨overload_sample_reading,
   overload_cycle_stops_both_outputs (5 / 11) initState overload_sample_reading⟩

/-- C2 counterexample: replaying spec scenario 2 (door up and idle after a
full up travel, pressure relieved, then an overload cycle at 0.15 A)
ends the overload cycle with both outputs false and the position
unchanged, but with the down travel timer still enabled — motion is
MovingDown, not Idle, refuting the claim that the overload stop leaves no
travel timer active. -/
theorem overload_leaves_timer_counterexample :
    (MOTOR_CURRENT_LIMIT ≤ get_motor_current (5 / 11) ∧
     (run downStartTrace).timer_down_en = true ∧
     run overloadStopTrace = tick (5 / 11) (run downStartTrace)) ∧
    (run overloadStopTrace).OutputMotorUp = false ∧
    (run overloadStopTrace).OutputMotorDown = false ∧
    (run overloadStopTrace).door_is_up = true ∧
    ¬ (run overloadStopTrace).timer_down_en = false := by
  obtain ⟨o1, o2, o3, o4⟩ := scenario_overload_stop
  obtain ⟨d1, -⟩ := scenario_down_start
  exact ⟨⟨overload_sample_reading, d1, rfl⟩, o1, o2, o3, by simp [o4]⟩

/-- C2 amended: when an overload (current ≥ threshold) fires during down
travel whose timer has not yet expired, the cycle ends with both motor
outputs false and the position unchanged, but the down travel timer stays
enabled (motion remains MovingDown, not Idle): the code's overload path
stops the outputs without disabling the timers. -/
theorem overload_stop_outputs_position (raw : ℚ) (s : MotorState)
    (hov : MOTOR_CURRENT_LIMIT ≤ get_motor_current raw)
    (hdn : s.timer_down_en = true) (hup : s.timer_up_en = false)
    (hrun : CYCLE_TIME < s.timer_down_value) :
    (tick raw s).OutputMotorUp = false ∧ (tick raw s).OutputMotorDown = false ∧
    (tick raw s).door_is_up = s.door_is_up ∧
    (tick raw s).timer_down_en = true := by
  obtain ⟨c1, c2, -⟩ := check_torque_sensor_overload raw s hov
  have hz : ¬ s.timer_down_value - CYCLE_TIME ≤ 0 := by push_neg; linarith
  obtain ⟨a, b, c, d⟩ := tick_down_running raw s hup hdn hz
  have houts : (tick raw s).OutputMotorUp = false ∧ (tick raw s).OutputMotorDown = false := by
    unfold tick
    exact iterate_outputs_stay_off (check_torque_sensor raw s) c1 c2
  exact ⟨houts.1, houts.2, c, b⟩

/-- Witness for the amended C2, at the overload reading 0.15 A and the
state right after down travel started from the door-up position. -/
theorem overload_stop_outputs_position_witness :
    (MOTOR_CURRENT_LIMIT ≤ get_motor_current (5 / 11) ∧
     (run downStartTrace).timer_down_en = true ∧
     (run downStartTrace).timer_up_en = false ∧
     CYCLE_TIME < (run downStartTrace).timer_down_value) ∧
    ((tick (5 / 11) (run downStartTrace)).OutputMotorUp = false ∧
     (tick (5 / 11) (run downStartTrace)).OutputMotorDown = false ∧
     (tick (5 / 11) (run downStartTrace)).door_is_up = (run downStartTrace).door_is_up ∧
     (tick (5 / 11) (run downStartTrace)).timer_down_en = true) :=
  ⟨⟨overload_sample_reading, scenario_down_start.1, scenario_down_start.2.1,
    scenario_down_start_bounds⟩,
   overload_stop_outputs_position (5 / 11) (run downStartTrace) overload_sample_reading
     scenario_down_start.1 scenario_down_start.2.1 scenario_down_start_bounds⟩

/-- C3: in every state reachable from the initial state (door down,
timers disabled) by any interleaving of presence-detected events,
presence-released events and main-loop cycles, the drive-up and
drive-down outputs are never both true. -/
theorem outputs_never_both_true (s : MotorState) (h : Reachable s) :
    ¬ (s.OutputMotorUp = true ∧ s.OutputMotorDown = true) := by
  obtain ⟨i1, i2, i3, i4, -⟩ := Inv_of_Reachable h
  rintro ⟨hu, hd⟩
  have e1 := i1 (i3 hu)
  have e2 := i2 (i4 hd)
  rw [e1] at e2
  simp at e2

/-- Witness for C3 at the reachable state right after up motion starts. -/
theorem outputs_never_both_true_witness :
    Reachable (run upStartTrace) ∧
    ¬ ((run upStartTrace).OutputMotorUp = true ∧
       (run upStartTrace).OutputMotorDown = true) :=
  ⟨⟨upStartTrace, rfl⟩, outputs_never_both_true (run upStartTrace) ⟨upStartTrace, rfl⟩⟩

/-- C4 counterexample: with the motor driving up and an overload reading
of 0.15 A, `check_torque_sensor` itself mutates the state: it drives the
up output from true to false (and rewrites the indicator), so the
realized safety check is not a mutation-free pure predicate whose caller
performs the stop. -/
theorem check_not_pure_counterexample :
    (run upStartTrace).OutputMotorUp = true ∧
    MOTOR_CURRENT_LIMIT ≤ get_motor_current (5 / 11) ∧
    (check_torque_sensor (5 / 11) (run upStartTrace)).OutputMotorUp = false ∧
    check_torque_sensor (5 / 11) (run upStartTrace) ≠ run upStartTrace := by
  obtain ⟨-, -, -, hup, -, -⟩ := scenario_up_start
  obtain ⟨c1, -, -⟩ :=
    check_torque_sensor_overload (5 / 11) (run upStartTrace) overload_sample_reading
  refine ⟨hup, overload_sample_reading, c1, ?_⟩
  intro heq
  rw [heq, hup] at c1
  simp at c1

/-- C4 amended: `check_torque_sensor` leaves both timer-enable flags,
both timer values and the door position unchanged, and below the
threshold it changes nothing at all; but at or above the threshold it
performs the stop itself — writing both motor outputs false and lighting
the red LED — rather than leaving all mutation to a caller-invoked
force-stop. -/
theorem check_torque_sensor_effects (raw : ℚ) (s : MotorState) :
    ((check_torque_sensor raw s).timer_up_en = s.timer_up_en ∧
     (check_torque_sensor raw s).timer_down_en = s.timer_down_en ∧
     (check_torque_sensor raw s).timer_up_value = s.timer_up_value ∧
     (check_torque_sensor raw s).timer_down_value = s.timer_down_value ∧
     (check_torque_sensor raw s).door_is_up = s.door_is_up) ∧
    (get_motor_current raw < MOTOR_CURRENT_LIMIT → check_torque_sensor raw s = s) ∧
    (MOTOR_CURRENT_LIMIT ≤ get_motor_current raw →
      (check_torque_sensor raw s).OutputMotorUp = false ∧
      (check_torque_sensor raw s).OutputMotorDown = false ∧
      (check_torque_sensor raw s).RED_LED = false) := by
  refine ⟨⟨by simp, by simp, by simp, by simp, by simp⟩, ?_, ?_⟩
  · exact check_torque_sensor_no_overload raw s
  · exact check_torque_sensor_overload raw s

/-- Witness for the amended C4 at the overload reading 0.15 A and the
startup state. -/
theorem check_torque_sensor_effects_witness :
    (check_torque_sensor (5 / 11) initState).timer_up_en = initState.timer_up_en ∧
    MOTOR_CURRENT_LIMIT ≤ get_motor_current (5 / 11) ∧
    (check_torque_sensor (5 / 11) initState).OutputMotorUp = false ∧
    (check_torque_sensor (5 / 11) initState).RED_LED = false :=
  ⟨(check_torque_sensor_effects (5 / 11) initState).1.1,
   overload_sample_reading,
   ((check_torque_sensor_effects (5 / 11) initState).2.2 overload_sample_reading).1,
   ((check_torque_sensor_effects (5 / 11) initState).2.2 overload_sample_reading).2.2⟩

/-- C5: in every reachable state, an enabled up timer (MovingUp) implies
the door position is not up, and an enabled down timer (MovingDown)
implies the door position is up; moreover whenever `pressure_detected`
actually enters upward motion (the up timer goes from disabled to
enabled), the position at the moment of entry was not up. -/
theorem motion_respects_position (s t : MotorState) (hs : Reachable s)
    (h1 : t.timer_up_en = false) (h2 : (pressure_detected t).timer_up_en = true) :
    ((s.timer_up_en = true → s.door_is_up = false) ∧
     (s.timer_down_en = true → s.door_is_up = true)) ∧
    t.door_is_up = false := by
  obtain ⟨i1, i2, -⟩ := Inv_of_Reachable hs
  refine ⟨⟨i1, i2⟩, ?_⟩
  by_cases hg : (!t.door_is_up && !t.timer_up_en) = true
  · simp only [Bool.and_eq_true, Bool.not_eq_true'] at hg
    exact hg.1
  · unfold pressure_detected at h2
    rw [if_neg hg] at h2
    rw [h2] at h1
    simp at h1

/-- Witness for C5 at the reachable state right after up motion starts
and the startup state, on which `pressure_detected` enters up motion. -/
theorem motion_respects_position_witness :
    (Reachable (run upStartTrace) ∧ initState.timer_up_en = false ∧
     (pressure_detected initState).timer_up_en = true) ∧
    (((run upStartTrace).timer_up_en = true → (run upStartTrace).door_is_up = false) ∧
     ((run upStartTrace).timer_down_en = true → (run upStartTrace).door_is_up = true)) ∧
    initState.door_is_up = false :=
  ⟨⟨⟨upStartTrace, rfl⟩, rfl, rfl⟩,
   motion_respects_position (run upStartTrace) initState ⟨upStartTrace, rfl⟩ rfl rfl⟩

/-- C6: in every state reachable by any interleaving of presence events
and cycles, at most one of the two travel timers is enabled. -/
theorem at_most_one_timer_enabled (s : MotorState) (h : Reachable s) :
    ¬ (s.timer_up_en = true ∧ s.timer_down_en = true) := by
  obtain ⟨i1, i2, -⟩ := Inv_of_Reachable h
  rintro ⟨hu, hd⟩
  have e1 := i1 hu
  have e2 := i2 hd
  rw [e1] at e2
  simp at e2

/-- Witness for C6 at the reachable state right after down motion
starts. -/
theorem at_most_one_timer_enabled_witness :
    Reachable (run downStartTrace) ∧
    ¬ ((run downStartTrace).timer_up_en = true ∧
       (run downStartTrace).timer_down_en = true) :=
  ⟨⟨downStartTrace, rfl⟩,
   at_most_one_timer_enabled (run downStartTrace) ⟨downStartTrace, rfl⟩⟩

/-- C7: on every reachable state, the timer advance leaves both timer
values nonnegative; and when the enabled timer reaches ≤ 0 on that
advance, the same cycle stops that direction's motor output, disables the
timer (motion Idle), sets the position to that timer's target (up for the
rise timer, down for the fall timer) and resets the timer to its full
configured duration. -/
theorem timer_nonnegative_and_expiry (s : MotorState) (h : Reachable s) :
    (0 ≤ (iterate_and_check_timer s).timer_up_value ∧
     0 ≤ (iterate_and_check_timer s).timer_down_value) ∧
    (s.timer_up_en = true → s.timer_up_value - CYCLE_TIME ≤ 0 →
      (iterate_and_check_timer s).OutputMotorUp = false ∧
      (iterate_and_check_timer s).timer_up_en = false ∧
      (iterate_and_check_timer s).door_is_up = true ∧
      (iterate_and_check_timer s).timer_up_value = DOOR_RISE_TIME) ∧
    (s.timer_down_en = true → s.timer_down_value - CYCLE_TIME ≤ 0 →
      (iterate_and_check_timer s).OutputMotorDown = false ∧
      (iterate_and_check_timer s).timer_down_en = false ∧
      (iterate_and_check_timer s).door_is_up = false ∧
      (iterate_and_check_timer s).timer_down_value = DOOR_FALL_TIME) := by
  have hInv := Inv_of_Reachable h
  obtain ⟨p1, -, p2, -⟩ := (Inv_iterate_and_check_timer hInv).2.2.2.2
  refine ⟨⟨le_of_lt p1, le_of_lt p2⟩, ?_, ?_⟩
  · intro hen hz
    obtain ⟨a, b, c, d, e, f, g⟩ := iterate_up_expiry s hen hz
    exact ⟨f, a, e, c⟩
  · intro hen hz
    have hu : s.timer_up_en = false := by
      cases hx : s.timer_up_en with
      | false => rfl
      | true =>
        obtain ⟨i1, i2, -⟩ := hInv
        have e1 := i1 hx
        have e2 := i2 hen
        rw [e1] at e2
        simp at e2
    obtain ⟨a, b, c, d, e, f, g⟩ := iterate_down_expiry s hu hen hz
    exact ⟨g, b, e, d⟩

/-- Witness for C7 at the reachable state one cycle short of completing
up travel, whose next advance expires the rise timer. -/
theorem timer_nonnegative_and_expiry_witness :
    (Reachable (run upAlmostDoneTrace) ∧
     (run upAlmostDoneTrace).timer_up_en = true ∧
     (run upAlmostDoneTrace).timer_up_value - CYCLE_TIME ≤ 0) ∧
    (0 ≤ (iterate_and_check_timer (run upAlmostDoneTrace)).timer_up_value ∧
     (iterate_and_check_timer (run upAlmostDoneTrace)).OutputMotorUp = false ∧
     (iterate_and_check_timer (run upAlmostDoneTrace)).timer_up_en = false ∧
     (iterate_and_check_timer (run upAlmostDoneTrace)).door_is_up = true ∧
     (iterate_and_check_timer (run upAlmostDoneTrace)).timer_up_value = DOOR_RISE_TIME) :=
  ⟨⟨⟨upAlmostDoneTrace, rfl⟩, scenario_up_almost_done.1, scenario_up_almost_done_expiry⟩,
   ⟨(timer_nonnegative_and_expiry (run upAlmostDoneTrace) ⟨upAlmostDoneTrace, rfl⟩).1.1,
    (timer_nonnegative_and_expiry (run upAlmostDoneTrace) ⟨upAlmostDoneTrace, rfl⟩).2.1
      scenario_up_almost_done.1 scenario_up_almost_done_expiry⟩⟩

/-- C8: `pressure_detected` is idempotent: a second call without an
intervening release leaves the whole state (timer value, timer enable,
motor outputs, position, LEDs) exactly as after the first call — in
particular it does not reset the up timer or change direction. -/
theorem pressure_detected_idempotent (s : MotorState) :
    pressure_detected (pressure_detected s) = pressure_detected s := by
  by_cases hg : (!s.door_is_up && !s.timer_up_en) = true
  · have h1 : pressure_detected s =
        light_LED GREEN { s with OutputMotorUp := true, timer_up_en := true } := by
      unfold pressure_detected
      rw [if_pos hg]
    rw [h1]
    unfold pressure_detected
    rw [if_neg (by simp)]
  · have h1 : pressure_detected s = s := by
      unfold pressure_detected
      rw [if_neg hg]
    rw [h1, h1]

/-- Witness for C8 at the startup state. -/
theorem pressure_detected_idempotent_witness :
    pressure_detected (pressure_detected initState) = pressure_detected initState :=
  pressure_detected_idempotent initState

/-- C9: the overload path of `check_torque_sensor` leaves both
timer-enable flags, both timer values and the door position unchanged (it
writes only the motor outputs and the LEDs); consequently a travel timer
that was running when the overload fired keeps decrementing on subsequent
cycles, and its eventual expiry still sets the position to the travel's
target, exactly as if the stroke had completed. -/
theorem overload_frame_and_completion (raw : ℚ)
    (hov : MOTOR_CURRENT_LIMIT ≤ get_motor_current raw) :
    (∀ s : MotorState,
      (check_torque_sensor raw s).timer_up_en = s.timer_up_en ∧
      (check_torque_sensor raw s).timer_down_en = s.timer_down_en ∧
      (check_torque_sensor raw s).timer_up_value = s.timer_up_value ∧
      (check_torque_sensor raw s).timer_down_value = s.timer_down_value ∧
      (check_torque_sensor raw s).door_is_up = s.door_is_up) ∧
    (∀ s : MotorState, s.timer_up_en = true → ¬ s.timer_up_value - CYCLE_TIME ≤ 0 →
      (tick raw s).timer_up_en = true ∧
      (tick raw s).timer_up_value = s.timer_up_value - CYCLE_TIME) ∧
    (∀ (n : ℕ) (s : MotorState), s.timer_up_en = true → s.timer_down_en = false →
      0 < s.timer_up_value → s.timer_up_value ≤ (n : ℚ) * CYCLE_TIME →
      ((tick raw)^[n] s).door_is_up = true ∧ ((tick raw)^[n] s).timer_up_en = false) ∧
    (∀ (n : ℕ) (s : MotorState), s.timer_up_en = false → s.timer_down_en = true →
      0 < s.timer_down_value → s.timer_down_value ≤ (n : ℚ) * CYCLE_TIME →
      ((tick raw)^[n] s).door_is_up = false ∧ ((tick raw)^[n] s).timer_down_en = false) := by
  refine ⟨fun s => ⟨by simp, by simp, by simp, by simp, by simp⟩, ?_, ?_, ?_⟩
  · intro s hen hz
    obtain ⟨a, b, c, d⟩ := tick_up_running raw s hen hz
    exact ⟨a, d⟩
  · intro n s hen hd hpos hn
    obtain ⟨a, b, c⟩ := up_travel_completes raw n s hen hd hpos hn
    exact ⟨c, a⟩
  · intro n s hu hen hpos hn
    obtain ⟨a, b, c⟩ := down_travel_completes raw n s hu hen hpos hn
    exact ⟨c, b⟩

/-- Witness for C9: twenty overload cycles at 0.15 A from the start of up
travel still complete the stroke and record the door as up. -/
theorem overload_frame_and_completion_witness :
    MOTOR_CURRENT_LIMIT ≤ get_motor_current (5 / 11) ∧
    (check_torque_sensor (5 / 11) (run upStartTrace)).timer_up_en =
      (run upStartTrace).timer_up_en ∧
    ((tick (5 / 11))^[20] (run upStartTrace)).door_is_up = true ∧
    ((tick (5 / 11))^[20] (run upStartTrace)).timer_up_en = false :=
  ⟨overload_sample_reading,
   ((overload_frame_and_completion (5 / 11) overload_sample_reading).1 (run upStartTrace)).1,
   ((overload_frame_and_completion (5 / 11) overload_sample_reading).2.2.1 20
      (run upStartTrace) scenario_up_start.1 scenario_up_start.2.1
      scenario_up_start_bounds.1 scenario_up_start_bounds.2).1,
   ((overload_frame_and_completion (5 / 11) overload_sample_reading).2.2.1 20
      (run upStartTrace) scenario_up_start.1 scenario_up_start.2.1
      scenario_up_start_bounds.1 scenario_up_start_bounds.2).2⟩

/-- C10: after `light_LED`, each on-board LED is on (driven to the
active-low level 0, modelled `false`) exactly when it is the selected
one — red for input 0, green for 1, blue for 2 — so at most one LED is
on, and for an input outside {0, 1, 2} all three are left off. -/
theorem light_LED_selects_one (LED : Int) (s : MotorState) :
    ((light_LED LED s).RED_LED = false ↔ LED = 0) ∧
    ((light_LED LED s).GREEN_LED = false ↔ LED = 1) ∧
    ((light_LED LED s).BLUE_LED = false ↔ LED = 2) := by
  unfold light_LED RED GREEN BLUE
  split_ifs with h1 h2 h3 <;> simp_all

/-- Witness for C10 at input 0 (red) and the startup state. -/
theorem light_LED_selects_one_witness :
    ((light_LED 0 initState).RED_LED = false ↔ (0 : Int) = 0) ∧
    ((light_LED 0 initState).GREEN_LED = false ↔ (0 : Int) = 1) ∧
    ((light_LED 0 initState).BLUE_LED = false ↔ (0 : Int) = 2) :=
  light_LED_selects_one 0 initState

end Motor
